import Mathlib

/-!
Verification of the `culture_ship` resource of the fun-names provider.

The embedding follows `internal/provider/resource_culture_ship.go`. The
`internal/spaceships` package (word corpus, `Generate`, `NonDeterministicMode`)
is not part of the given sources, so those definitions are modelled from the
specification and carry a `Modelled from the spec:` doc comment.
-/

namespace FunNames

/-- Terraform framework string attribute value (`types.String`): null, unknown,
or a known string. -/
inductive TString where
  | null
  | unknown
  | value (s : String)
deriving DecidableEq

/-- Go `types.String.ValueString()`: the known value, or `""` when the value is
null or unknown. -/
def TString.valueString : TString → String
  | TString.value s => s
  | TString.null => ""
  | TString.unknown => ""

/-- The `keepers` map attribute (`types.Map` of strings), kept as opaque data:
Create and Update only copy it. -/
abbrev TMap : Type := Option (List (String × String))

/-- Embedding of `cultureShipModelV0` (the resource model: id, keepers, prefix,
separator). The Go field `Prefix` is named `pfx` here. -/
structure CultureShipModelV0 where
  id : TString
  keepers : TMap
  pfx : TString
  separator : TString
deriving DecidableEq

/-- Embedding of Go `strings.ToLower` on the inputs that occur here (the corpus
entries are basic-latin ship names): lower-case every character. -/
def goToLower (s : String) : String := String.mk (s.data.map Char.toLower)

/-- Error kind of the generator. `EmptyCorpus`: the word list has zero
entries. -/
inductive GenError where
  | emptyCorpus
deriving DecidableEq

/-- Modelled from the spec: the process-wide state of the missing
`internal/spaceships` package — the fixed word corpus, the seeded flag of the
random source, and the random source itself as a stream of values together with
its current sequence position. -/
structure SpaceshipsState where
  corpus : List String
  seeded : Bool
  vals : Nat → Nat
  pos : Nat

namespace Spaceships

/-- Modelled from the spec: `spaceships.NonDeterministicMode` — on first call it
switches the random source to an entropy-derived stream; once seeded every
later call is a no-op. -/
def NonDeterministicMode (entropy : Nat → Nat) (st : SpaceshipsState) :
    SpaceshipsState :=
  if st.seeded then st
  else { st with seeded := true, vals := entropy, pos := 0 }

/-- The index selected by the next random draw: the next stream value reduced
modulo the corpus size. -/
def selectedIndex (st : SpaceshipsState) : Nat :=
  st.vals st.pos % st.corpus.length

/-- The corpus entry at the selected index (defaulting to `""`, which is only
reachable on an empty corpus). -/
def selectedWord (st : SpaceshipsState) : String :=
  st.corpus.getD (selectedIndex st) ""

/-- Modelled from the spec: `spaceships.Generate` selects one entry from the
word corpus at random using the current random-source state (advancing it),
lower-cases the result and returns it; it fails with an `EmptyCorpus` error
kind if the corpus is empty. The separator argument only matters for the
multi-word extension, which the observed behaviour does not use. -/
def Generate (st : SpaceshipsState) (_separator : String) :
    Except GenError (String × SpaceshipsState) :=
  if st.corpus.isEmpty then Except.error GenError.emptyCorpus
  else Except.ok (goToLower (selectedWord st), { st with pos := st.pos + 1 })

end Spaceships

/-- Embedding of the separator attribute's schema behaviour: it is Optional,
Computed, with `stringdefault.StaticString "-")`, so planning fills an absent
(null) configuration value with `"-"`. -/
def applySeparatorDefault : TString → TString
  | TString.null => TString.value "-"
  | t => t

/-- The plan produced from a configuration: the separator default is applied,
the other attributes are taken as configured. -/
def planFromConfig (config : CultureShipModelV0) : CultureShipModelV0 :=
  { config with separator := applySeparatorDefault config.separator }

/-- Embedding of `cultureShipResource.Create`: ensure the random source is
seeded, read separator and prefix from the plan, generate and lower-case a
ship name, prepend `prefix + separator` when the prefix is non-empty (storing
the prefix, else storing null), and store the name as the id. -/
def cultureShipCreate (entropy : Nat → Nat) (st : SpaceshipsState)
    (plan : CultureShipModelV0) :
    Except GenError (CultureShipModelV0 × SpaceshipsState) :=
  let st1 := Spaceships.NonDeterministicMode entropy st
  let separator := plan.separator.valueString
  let p := plan.pfx.valueString
  match Spaceships.Generate st1 separator with
  | Except.error e => Except.error e
  | Except.ok (raw, st2) =>
    let ship := goToLower raw
    let pn0 : CultureShipModelV0 :=
      { id := TString.null, keepers := plan.keepers, pfx := TString.null,
        separator := TString.value separator }
    let ship1 := if p ≠ "" then p ++ separator ++ ship else ship
    let pn1 := if p ≠ "" then { pn0 with pfx := TString.value p } else pn0
    Except.ok ({ pn1 with id := TString.value ship1 }, st2)

/-- Embedding of `cultureShipResource.Update`: the plan is copied to the state
unchanged; the generator is not invoked, so the spaceships state is unchanged. -/
def cultureShipUpdate (st : SpaceshipsState) (plan : CultureShipModelV0) :
    CultureShipModelV0 × SpaceshipsState :=
  (plan, st)

/-- Embedding of `cultureShipResource.Read`: a no-op, the prior state is already
populated; the generator is not invoked. -/
def cultureShipRead (st : SpaceshipsState) (state : CultureShipModelV0) :
    CultureShipModelV0 × SpaceshipsState :=
  (state, st)

/-- Embedding of `cultureShipResource.Delete`: a no-op on the spaceships state;
the framework removes the resource state. -/
def cultureShipDelete (st : SpaceshipsState) : SpaceshipsState :=
  st

/-- An ASCII upper-case letter. -/
def isUpperAscii (c : Char) : Prop := 65 ≤ c.toNat ∧ c.toNat ≤ 90

instance (c : Char) : Decidable (isUpperAscii c) := by
  unfold isUpperAscii
  infer_instance

/-- A string is entirely lower-case: it contains no ASCII upper-case letter. -/
def allLower (s : String) : Prop := ∀ c ∈ s.data, ¬ isUpperAscii c

instance (s : String) : Decidable (allLower s) := by
  unfold allLower
  exact List.decidableBAll _ _

theorem char_ofNat_toNat (n : Nat) (h65 : 65 ≤ n) (h122 : n ≤ 122) :
    (Char.ofNat n).toNat = n := by
  interval_cases n <;> decide

theorem toLower_not_upper (c : Char) : ¬ isUpperAscii (Char.toLower c) := by
  unfold isUpperAscii Char.toLower
  dsimp only
  split
  case isTrue h =>
    rw [char_ofNat_toNat (c.toNat + 32) (by omega) (by omega)]
    omega
  case isFalse h =>
    exact h

theorem toLower_eq_self (c : Char) (h : ¬ isUpperAscii c) : Char.toLower c = c := by
  unfold isUpperAscii at h
  unfold Char.toLower
  dsimp only
  rw [if_neg h]

theorem toLower_idem (c : Char) : Char.toLower (Char.toLower c) = Char.toLower c :=
  toLower_eq_self _ (toLower_not_upper c)

theorem goToLower_idem (s : String) : goToLower (goToLower s) = goToLower s := by
  unfold goToLower
  apply String.ext
  show (s.data.map Char.toLower).map Char.toLower = s.data.map Char.toLower
  rw [List.map_map]
  exact List.map_congr_left (fun a _ => toLower_idem a)

theorem allLower_goToLower (s : String) : allLower (goToLower s) := by
  unfold allLower goToLower
  intro c hc
  have hc' : c ∈ s.data.map Char.toLower := hc
  rw [List.mem_map] at hc'
  obtain ⟨a, _, ha⟩ := hc'
  rw [← ha]
  exact toLower_not_upper a

theorem goToLower_eq_empty_iff (s : String) : goToLower s = "" ↔ s = "" := by
  unfold goToLower
  constructor
  · intro h
    apply String.ext
    have hd : s.data.map Char.toLower = [] := congrArg String.data h
    exact List.map_eq_nil_iff.mp hd
  · intro h
    rw [h]
    rfl

theorem nonDeterministicMode_corpus (entropy : Nat → Nat) (st : SpaceshipsState) :
    (Spaceships.NonDeterministicMode entropy st).corpus = st.corpus := by
  unfold Spaceships.NonDeterministicMode
  split <;> rfl

theorem selectedWord_mem (st : SpaceshipsState) (h : st.corpus ≠ []) :
    Spaceships.selectedWord st ∈ st.corpus := by
  unfold Spaceships.selectedWord
  have hlen : 0 < st.corpus.length := List.length_pos.mpr h
  have hlt : Spaceships.selectedIndex st < st.corpus.length :=
    Nat.mod_lt _ hlen
  rw [List.getD_eq_getElem st.corpus "" hlt]
  exact List.getElem_mem hlt

/-- The value of a successful Create, in closed form: given a non-empty corpus,
Create seeds the source, draws the word at the selected index, lower-cases it,
composes the id and stores separator, keepers and (when non-empty) the
prefix. -/
theorem create_ok (entropy : Nat → Nat) (st : SpaceshipsState)
    (plan : CultureShipModelV0) (h : st.corpus ≠ []) :
    cultureShipCreate entropy st plan =
      Except.ok
        ({ id := TString.value
              (if plan.pfx.valueString ≠ "" then
                plan.pfx.valueString ++ plan.separator.valueString ++
                  goToLower (Spaceships.selectedWord
                    (Spaceships.NonDeterministicMode entropy st))
              else
                goToLower (Spaceships.selectedWord
                  (Spaceships.NonDeterministicMode entropy st))),
           keepers := plan.keepers,
           pfx := if plan.pfx.valueString ≠ "" then
               TString.value plan.pfx.valueString
             else TString.null,
           separator := TString.value plan.separator.valueString },
         { Spaceships.NonDeterministicMode entropy st with
             pos := (Spaceships.NonDeterministicMode entropy st).pos + 1 }) := by
  unfold cultureShipCreate Spaceships.Generate
  dsimp only
  have hne : (Spaceships.NonDeterministicMode entropy st).corpus.isEmpty = false := by
    rw [nonDeterministicMode_corpus]
    exact List.isEmpty_eq_false.mpr h
  rw [hne]
  simp only [Bool.false_eq_true, if_false]
  rw [goToLower_idem]
  by_cases hp : plan.pfx.valueString ≠ ""
  · simp only [if_pos hp]
  · simp only [if_neg hp]

theorem create_empty (entropy : Nat → Nat) (st : SpaceshipsState)
    (plan : CultureShipModelV0) (h : st.corpus = []) :
    cultureShipCreate entropy st plan = Except.error GenError.emptyCorpus := by
  unfold cultureShipCreate Spaceships.Generate
  dsimp only
  have hne : (Spaceships.NonDeterministicMode entropy st).corpus.isEmpty = true := by
    rw [nonDeterministicMode_corpus, h]
    rfl
  rw [hne]
  rfl

/-! Concrete example inputs used to instantiate the theorems. -/

def exEntropy : Nat → Nat := fun _ => 0

def exState : SpaceshipsState :=
  { corpus := ["Orion"], seeded := false, vals := fun _ => 1, pos := 7 }

def exStateAfter : SpaceshipsState :=
  { corpus := ["Orion"], seeded := true, vals := exEntropy, pos := 1 }

def exStateEmpty : SpaceshipsState :=
  { corpus := [], seeded := false, vals := fun _ => 1, pos := 7 }

def exStateEmptyWord : SpaceshipsState :=
  { corpus := [""], seeded := false, vals := fun _ => 1, pos := 7 }

def exStateEmptyWordAfter : SpaceshipsState :=
  { corpus := [""], seeded := true, vals := exEntropy, pos := 1 }

def exPlanHMS : CultureShipModelV0 :=
  { id := TString.null, keepers := none, pfx := TString.value "HMS",
    separator := TString.value "-" }

def exPlanNoPfx : CultureShipModelV0 :=
  { id := TString.null, keepers := none, pfx := TString.null,
    separator := TString.value "-" }

def exPlanKeepers : CultureShipModelV0 :=
  { id := TString.unknown, keepers := some [("env", "dev")],
    pfx := TString.value "HMS", separator := TString.value "-" }

def exModelHMS : CultureShipModelV0 :=
  { id := TString.value "HMS-orion", keepers := none,
    pfx := TString.value "HMS", separator := TString.value "-" }

def exModelNoPfx : CultureShipModelV0 :=
  { id := TString.value "orion", keepers := none, pfx := TString.null,
    separator := TString.value "-" }

def exModelKeepers : CultureShipModelV0 :=
  { id := TString.value "HMS-orion", keepers := some [("env", "dev")],
    pfx := TString.value "HMS", separator := TString.value "-" }

def exModelEmptyId : CultureShipModelV0 :=
  { id := TString.value "", keepers := none, pfx := TString.null,
    separator := TString.value "-" }

/-- C1: for every Create request, the generated name stored as the id equals
the lowercased word selected from the corpus when the prefix is empty, and
prefix + separator + lowercased selected word (prefix and separator prepended
unchanged) when the prefix is non-empty. -/
theorem c1_create_id_composition (entropy : Nat → Nat) (st : SpaceshipsState)
    (plan m : CultureShipModelV0) (st' : SpaceshipsState)
    (h : cultureShipCreate entropy st plan = Except.ok (m, st')) :
    m.id = TString.value
      (if plan.pfx.valueString = "" then
        goToLower (Spaceships.selectedWord (Spaceships.NonDeterministicMode entropy st))
      else
        plan.pfx.valueString ++ plan.separator.valueString ++
          goToLower (Spaceships.selectedWord (Spaceships.NonDeterministicMode entropy st))) := by
  by_cases hc : st.corpus = []
  · rw [create_empty entropy st plan hc] at h
    exact absurd h (by simp)
  · rw [create_ok entropy st plan hc] at h
    injection h with hpair
    injection hpair with hm hst
    subst hm
    by_cases hp : plan.pfx.valueString = ""
    · simp [hp]
    · simp [hp]

theorem c1_witness :
    cultureShipCreate exEntropy exState exPlanHMS = Except.ok (exModelHMS, exStateAfter) ∧
    exModelHMS.id = TString.value
      (if exPlanHMS.pfx.valueString = "" then
        goToLower (Spaceships.selectedWord (Spaceships.NonDeterministicMode exEntropy exState))
      else
        exPlanHMS.pfx.valueString ++ exPlanHMS.separator.valueString ++
          goToLower (Spaceships.selectedWord (Spaceships.NonDeterministicMode exEntropy exState))) :=
  ⟨rfl, c1_create_id_composition exEntropy exState exPlanHMS exModelHMS exStateAfter rfl⟩

/-- C2 as stated is false: Create prepends a non-empty prefix unchanged, so a
prefix containing upper-case letters yields an id that is not entirely
lower-case ("HMS-orion" here). -/
theorem c2_counterexample :
    cultureShipCreate exEntropy exState exPlanHMS = Except.ok (exModelHMS, exStateAfter) ∧
    ¬ allLower exModelHMS.id.valueString :=
  ⟨rfl, by decide⟩

/-- C2 (amended): every generated name produced with an empty (or absent)
planned prefix is entirely lower-case, regardless of the corpus entries'
casing and of the separator; a non-empty prefix is prepended unchanged and may
carry upper-case letters into the id. -/
theorem c2_create_id_all_lower (entropy : Nat → Nat) (st : SpaceshipsState)
    (plan m : CultureShipModelV0) (st' : SpaceshipsState)
    (hp : plan.pfx.valueString = "")
    (h : cultureShipCreate entropy st plan = Except.ok (m, st')) :
    allLower m.id.valueString := by
  by_cases hc : st.corpus = []
  · rw [create_empty entropy st plan hc] at h
    exact absurd h (by simp)
  · rw [create_ok entropy st plan hc] at h
    injection h with hpair
    injection hpair with hm hst
    subst hm
    dsimp only
    rw [if_neg (fun hne => hne hp)]
    exact allLower_goToLower _

theorem c2_witness :
    exPlanNoPfx.pfx.valueString = "" ∧
    cultureShipCreate exEntropy exState exPlanNoPfx = Except.ok (exModelNoPfx, exStateAfter) ∧
    allLower exModelNoPfx.id.valueString :=
  ⟨rfl, rfl,
    c2_create_id_all_lower exEntropy exState exPlanNoPfx exModelNoPfx exStateAfter rfl rfl⟩

/-- C3: against an empty corpus, Generate fails with the EmptyCorpus error,
the error propagates through Create, and no (empty-string) success is
returned. -/
theorem c3_empty_corpus (entropy : Nat → Nat) (st : SpaceshipsState)
    (sep : String) (plan : CultureShipModelV0) (h : st.corpus = []) :
    Spaceships.Generate st sep = Except.error GenError.emptyCorpus ∧
    cultureShipCreate entropy st plan = Except.error GenError.emptyCorpus := by
  constructor
  · unfold Spaceships.Generate
    have hne : st.corpus.isEmpty = true := by
      rw [h]
      rfl
    rw [hne]
    rfl
  · exact create_empty entropy st plan h

theorem c3_witness :
    exStateEmpty.corpus = [] ∧
    Spaceships.Generate exStateEmpty "-" = Except.error GenError.emptyCorpus ∧
    cultureShipCreate exEntropy exStateEmpty exPlanHMS = Except.error GenError.emptyCorpus :=
  ⟨rfl, (c3_empty_corpus exEntropy exStateEmpty "-" exPlanHMS rfl).1,
    (c3_empty_corpus exEntropy exStateEmpty "-" exPlanHMS rfl).2⟩

/-- C4 as stated is false: a non-empty corpus may contain the empty string as
an entry, and with an empty prefix Create then stores the empty string as the
id. -/
theorem c4_counterexample :
    exStateEmptyWord.corpus ≠ [] ∧
    cultureShipCreate exEntropy exStateEmptyWord exPlanNoPfx =
      Except.ok (exModelEmptyId, exStateEmptyWordAfter) ∧
    exModelEmptyId.id.valueString = "" :=
  ⟨by decide, rfl, rfl⟩

/-- C4 (amended): for every non-empty corpus all of whose entries are
non-empty, and every separator and prefix, the name produced by a Create
request is a non-empty string. -/
theorem c4_create_id_nonempty (entropy : Nat → Nat) (st : SpaceshipsState)
    (plan m : CultureShipModelV0) (st' : SpaceshipsState)
    (hw : ∀ w ∈ st.corpus, w ≠ "") (hc : st.corpus ≠ [])
    (h : cultureShipCreate entropy st plan = Except.ok (m, st')) :
    m.id.valueString ≠ "" := by
  rw [create_ok entropy st plan hc] at h
  injection h with hpair
  injection hpair with hm hst
  subst hm
  have hmem : Spaceships.selectedWord (Spaceships.NonDeterministicMode entropy st) ∈ st.corpus := by
    have hmem' := selectedWord_mem (Spaceships.NonDeterministicMode entropy st)
      (by rw [nonDeterministicMode_corpus]; exact hc)
    rwa [nonDeterministicMode_corpus] at hmem'
  have hwne : Spaceships.selectedWord (Spaceships.NonDeterministicMode entropy st) ≠ "" :=
    hw _ hmem
  have hshipne :
      goToLower (Spaceships.selectedWord (Spaceships.NonDeterministicMode entropy st)) ≠ "" :=
    fun hcontr => hwne ((goToLower_eq_empty_iff _).mp hcontr)
  by_cases hp : plan.pfx.valueString ≠ ""
  · dsimp only
    rw [if_pos hp]
    show plan.pfx.valueString ++ plan.separator.valueString ++
        goToLower (Spaceships.selectedWord (Spaceships.NonDeterministicMode entropy st)) ≠ ""
    intro hcontr
    have hd := congrArg String.data hcontr
    rw [String.data_append, String.data_append] at hd
    rw [show ("" : String).data = [] from rfl] at hd
    have hnil : plan.pfx.valueString.data = [] :=
      (List.append_eq_nil.mp ((List.append_eq_nil.mp hd).1)).1
    exact hp (String.ext hnil)
  · dsimp only
    rw [if_neg hp]
    show goToLower (Spaceships.selectedWord (Spaceships.NonDeterministicMode entropy st)) ≠ ""
    exact hshipne

theorem c4_witness :
    (∀ w ∈ exState.corpus, w ≠ "") ∧ exState.corpus ≠ [] ∧
    cultureShipCreate exEntropy exState exPlanNoPfx = Except.ok (exModelNoPfx, exStateAfter) ∧
    exModelNoPfx.id.valueString ≠ "" :=
  ⟨by decide, by decide, rfl,
    c4_create_id_nonempty exEntropy exState exPlanNoPfx exModelNoPfx exStateAfter
      (by decide) (by decide) rfl⟩

/-- C5: for a fixed random-source state and corpus, generation is a pure
function of (corpus, separator, prefix): two Creates from the same state whose
plans agree on separator and prefix produce the same name and the same final
spaceships state, and the corpus is unchanged (only the sequence position and
the seed flag of the random source move). -/
theorem c5_create_deterministic (entropy : Nat → Nat) (st : SpaceshipsState)
    (p1 p2 m1 m2 : CultureShipModelV0) (st1 st2 : SpaceshipsState)
    (hsep : p1.separator.valueString = p2.separator.valueString)
    (hpfx : p1.pfx.valueString = p2.pfx.valueString)
    (h1 : cultureShipCreate entropy st p1 = Except.ok (m1, st1))
    (h2 : cultureShipCreate entropy st p2 = Except.ok (m2, st2)) :
    m1.id = m2.id ∧ st1 = st2 ∧ st1.corpus = st.corpus := by
  by_cases hc : st.corpus = []
  · rw [create_empty entropy st p1 hc] at h1
    exact absurd h1 (by simp)
  · rw [create_ok entropy st p1 hc] at h1
    rw [create_ok entropy st p2 hc] at h2
    injection h1 with hpair1
    injection hpair1 with hm1 hs1
    injection h2 with hpair2
    injection hpair2 with hm2 hs2
    subst hm1
    subst hs1
    subst hm2
    subst hs2
    refine ⟨?_, rfl, ?_⟩
    · dsimp only
      rw [hsep, hpfx]
    · show (Spaceships.NonDeterministicMode entropy st).corpus = st.corpus
      exact nonDeterministicMode_corpus entropy st

theorem c5_witness :
    exPlanHMS.separator.valueString = exPlanKeepers.separator.valueString ∧
    exPlanHMS.pfx.valueString = exPlanKeepers.pfx.valueString ∧
    cultureShipCreate exEntropy exState exPlanHMS = Except.ok (exModelHMS, exStateAfter) ∧
    cultureShipCreate exEntropy exState exPlanKeepers = Except.ok (exModelKeepers, exStateAfter) ∧
    (exModelHMS.id = exModelKeepers.id ∧ exStateAfter = exStateAfter ∧
      exStateAfter.corpus = exState.corpus) :=
  ⟨rfl, rfl, rfl, rfl,
    c5_create_deterministic exEntropy exState exPlanHMS exPlanKeepers exModelHMS exModelKeepers
      exStateAfter exStateAfter rfl rfl rfl rfl⟩

/-- C6: the random-source initializer is idempotent: the first call seeds the
source, and every subsequent call — with any entropy, including the call made
at the start of every Create request — leaves the state unchanged and never
makes it deterministic (unseeded) again. -/
theorem c6_nonDeterministicMode_idempotent (e1 e2 : Nat → Nat) (st : SpaceshipsState) :
    Spaceships.NonDeterministicMode e2 (Spaceships.NonDeterministicMode e1 st) =
      Spaceships.NonDeterministicMode e1 st ∧
    (Spaceships.NonDeterministicMode e1 st).seeded = true := by
  unfold Spaceships.NonDeterministicMode
  by_cases hs : st.seeded = true
  · simp [hs]
  · simp [hs]

/-- C7: a Create request whose configuration leaves the separator absent
behaves exactly like one with separator "-", because the schema's planning
default fills an absent separator with "-". -/
theorem c7_separator_default (entropy : Nat → Nat) (st : SpaceshipsState)
    (i : TString) (k : TMap) (p : TString) :
    cultureShipCreate entropy st
        (planFromConfig { id := i, keepers := k, pfx := p, separator := TString.null }) =
      cultureShipCreate entropy st
        (planFromConfig { id := i, keepers := k, pfx := p, separator := TString.value "-" }) :=
  rfl

/-- C8: after every successful Create, the stored prefix is null when the
planned prefix is the empty string or absent, and equals the planned prefix
exactly when it is non-empty. -/
theorem c8_create_stored_pfx (entropy : Nat → Nat) (st : SpaceshipsState)
    (plan m : CultureShipModelV0) (st' : SpaceshipsState)
    (h : cultureShipCreate entropy st plan = Except.ok (m, st')) :
    (plan.pfx.valueString = "" → m.pfx = TString.null) ∧
    (plan.pfx.valueString ≠ "" → m.pfx = TString.value plan.pfx.valueString) := by
  by_cases hc : st.corpus = []
  · rw [create_empty entropy st plan hc] at h
    exact absurd h (by simp)
  · rw [create_ok entropy st plan hc] at h
    injection h with hpair
    injection hpair with hm hst
    subst hm
    constructor
    · intro hp
      simp [hp]
    · intro hp
      simp [hp]

theorem c8_witness :
    cultureShipCreate exEntropy exState exPlanHMS = Except.ok (exModelHMS, exStateAfter) ∧
    ((exPlanHMS.pfx.valueString = "" → exModelHMS.pfx = TString.null) ∧
      (exPlanHMS.pfx.valueString ≠ "" →
        exModelHMS.pfx = TString.value exPlanHMS.pfx.valueString)) :=
  ⟨rfl, c8_create_stored_pfx exEntropy exState exPlanHMS exModelHMS exStateAfter rfl⟩

/-- C9: Create writes the keepers map and the separator back from the plan
unchanged (the separator is a known value in every plan, by the schema's
Computed default), so only the id and prefix attributes are computed. -/
theorem c9_create_keepers_separator (entropy : Nat → Nat) (st : SpaceshipsState)
    (plan m : CultureShipModelV0) (st' : SpaceshipsState) (s : String)
    (hsep : plan.separator = TString.value s)
    (h : cultureShipCreate entropy st plan = Except.ok (m, st')) :
    m.keepers = plan.keepers ∧ m.separator = plan.separator := by
  by_cases hc : st.corpus = []
  · rw [create_empty entropy st plan hc] at h
    exact absurd h (by simp)
  · rw [create_ok entropy st plan hc] at h
    injection h with hpair
    injection hpair with hm hst
    subst hm
    refine ⟨rfl, ?_⟩
    show TString.value plan.separator.valueString = plan.separator
    rw [hsep]
    rfl

theorem c9_witness :
    exPlanHMS.separator = TString.value "-" ∧
    cultureShipCreate exEntropy exState exPlanHMS = Except.ok (exModelHMS, exStateAfter) ∧
    (exModelHMS.keepers = exPlanHMS.keepers ∧ exModelHMS.separator = exPlanHMS.separator) :=
  ⟨rfl, rfl,
    c9_create_keepers_separator exEntropy exState exPlanHMS exModelHMS exStateAfter "-" rfl rfl⟩

/-- C10: Update copies the planned model verbatim into state, Read and Delete
change nothing, and none of the three touches the spaceships state (so the
random-name generator is never invoked by them). -/
theorem c10_update_read_delete_frame (st : SpaceshipsState)
    (plan model : CultureShipModelV0) :
    cultureShipUpdate st plan = (plan, st) ∧
    cultureShipRead st model = (model, st) ∧
    cultureShipDelete st = st :=
  ⟨rfl, rfl, rfl⟩

end FunNames
